import Mathlib

/-!
Shallow embedding of the inventory-coverage reporting pipeline (src/app.py).

Numeric spreadsheet cells are modelled as `Option ℚ`: `none` stands for a
missing value (NaN).  In pandas every comparison with NaN is false, so the
row filter drops such rows; `np.average` with a NaN weight returns NaN.
`pandas.DataFrame.round(2)` rounds half to even; `rhe` below is that
rounding on exact rationals.
-/

namespace App

/-- Round a rational to the nearest integer, ties to even
(the rounding used by `numpy`/`pandas.DataFrame.round`). -/
def rhe (q : ℚ) : ℤ :=
  if q - ⌊q⌋ = 1 / 2 then (if ⌊q⌋ % 2 = 0 then ⌊q⌋ else ⌊q⌋ + 1) else round q

/-- `.round(2)`: round to 2 decimal places, ties to even. -/
def round2 (q : ℚ) : ℚ := (rhe (q * 100) : ℚ) / 100

/-- One cell of the uploaded spreadsheet. -/
inductive CellVal where
  | str (s : String)
  | num (q : ℚ)
  | nan
deriving DecidableEq

/-- Read a cell of a numeric column; NaN and non-numeric content give `none`. -/
def CellVal.asNum : CellVal → Option ℚ
  | .num q => some q
  | _ => none

/-- Read a cell of the group-id column as a string. -/
def CellVal.asStr : CellVal → String
  | .str s => s
  | .num q => toString q
  | .nan => "nan"

/-- The uploaded table: its column names, and each row as a map from
column name to cell value (columns absent from `header` are not part of
the table even if the row function is defined there). -/
structure Table where
  header : List String
  rows : List (String → CellVal)

/-- `required_cols` from app.py line 19. -/
def required_cols : List String :=
  ["Filial", "Cobertura Atual", "Vlr Estoque Tmk", "Mercadoria", "Saldo Pedido"]

/-- Columns required but absent, in the order of `required_cols`
(app.py line 21). -/
def missing_cols (t : Table) : List String :=
  required_cols.filter (fun c => decide (c ∉ t.header))

/-- One input record after the rename step (app.py lines 26-31):
the five semantic fields, numeric ones possibly NaN.  "Mercadoria" is
required but unused downstream, so it is not carried. -/
structure RawRow where
  filial : String
  cobertura_dias : Option ℚ
  valor_estoque : Option ℚ
  saldo_pedido : Option ℚ
deriving DecidableEq

/-- Projection of one spreadsheet row onto the canonical fields. -/
def toRawRow (r : String → CellVal) : RawRow :=
  { filial := (r "Filial").asStr
    cobertura_dias := (r "Cobertura Atual").asNum
    valor_estoque := (r "Vlr Estoque Tmk").asNum
    saldo_pedido := (r "Saldo Pedido").asNum }

/-- A record that survived the filter: coverage and pending balance are
known numeric (and positive); stock value may still be NaN. -/
structure Row where
  filial : String
  cobertura_dias : ℚ
  valor_estoque : Option ℚ
  saldo_pedido : ℚ
deriving DecidableEq

/-- The filter (app.py line 34):
`df[(df.cobertura_dias > 0) & (df.saldo_pedido > 0)]`.
A NaN compares false, so rows with missing values are dropped. -/
def filterRow (rr : RawRow) : Option Row :=
  match rr.cobertura_dias, rr.saldo_pedido with
  | some c, some s =>
      if 0 < c ∧ 0 < s then some ⟨rr.filial, c, rr.valor_estoque, s⟩ else none
  | _, _ => none

/-- The distinct group ids in ascending order (`df.groupby("filial")`
sorts its keys). -/
def groupKeys (rows : List Row) : List String :=
  List.insertionSort (· ≤ ·) (rows.map (fun r => r.filial)).dedup

/-- The rows of one group. -/
def groupOf (rows : List Row) (k : String) : List Row :=
  rows.filter (fun r => r.filial == k)

/-- `calcular_media_ponderada` (app.py lines 40-44):
`np.average(cobertura_dias, weights=valor_estoque)` under a bare
try/except returning 0.  A NaN weight yields NaN (`none`, no exception);
weights summing to zero raise ZeroDivisionError, caught to 0. -/
def calcular_media_ponderada (g : List Row) : Option ℚ :=
  if g.all (fun r => r.valor_estoque.isSome) then
    if (g.map (fun r => r.valor_estoque.getD 0)).sum = 0 then some 0
    else some ((g.map (fun r => r.cobertura_dias * r.valor_estoque.getD 0)).sum /
      (g.map (fun r => r.valor_estoque.getD 0)).sum)
  else none

/-- `grupo["cobertura_dias"].mean()`.  Groups produced by `groupby` are
never empty, so the `sum / length` form agrees with pandas on every
reachable group. -/
def media_simples (g : List Row) : ℚ :=
  (g.map (fun r => r.cobertura_dias)).sum / (g.length : ℚ)

/-- `grupo["saldo_pedido"].sum()`. -/
def saldo_total (g : List Row) : ℚ :=
  (g.map (fun r => r.saldo_pedido)).sum

/-- One row of the "Cobertura Média por Filial" table, after `.round(2)`.
The weighted-mean column is `none` when the computation produced NaN. -/
structure SummaryRow where
  filial : String
  media_ponderada : Option ℚ
  media_simples : ℚ
  saldo_total : ℚ
deriving DecidableEq

/-- The `cobertura` table (app.py lines 46-56): per sorted group key, the
three aggregates rounded to 2 decimals. -/
def cobertura (rows : List Row) : List SummaryRow :=
  (groupKeys rows).map (fun k =>
    { filial := k
      media_ponderada := (calcular_media_ponderada (groupOf rows k)).map round2
      media_simples := round2 (media_simples (groupOf rows k))
      saldo_total := round2 (saldo_total (groupOf rows k)) })

/-- `pd.cut(cobertura_dias, bins=[0,15,30,45,60,inf], labels=..., right=False)`
(app.py lines 74-79): half-open buckets, `none` outside `[0, ∞)`. -/
def faixa (c : ℚ) : Option String :=
  if c < 0 then none
  else if c < 15 then some "0-15 dias"
  else if c < 30 then some "16-30 dias"
  else if c < 45 then some "31-45 dias"
  else if c < 60 then some "46-60 dias"
  else some "Mais de 60 dias"

/-- The five bucket labels in their fixed column order. -/
def bucketLabels : List String :=
  ["0-15 dias", "16-30 dias", "31-45 dias", "46-60 dias", "Mais de 60 dias"]

/-- Sum of `saldo_pedido` over the rows of a group falling in bucket `b`. -/
def bucketSumG (g : List Row) (b : String) : ℚ :=
  ((g.filter (fun r => faixa r.cobertura_dias == some b)).map (fun r => r.saldo_pedido)).sum

/-- One row of the "Valores Absolutos" table: the five bucket sums in the
order of `bucketLabels`, plus the TOTAL column. -/
structure BucketRow where
  filial : String
  vals : List ℚ
  total : ℚ
deriving DecidableEq

/-- `resumo_valores` (app.py lines 82-85): `groupby(['filial','faixa'])`
on the categorical `faixa` cross-tabulates every group with every bucket
label, `fillna(0)` makes empty combinations 0, and TOTAL is the row sum. -/
def resumo_valores (rows : List Row) : List BucketRow :=
  (groupKeys rows).map (fun k =>
    { filial := k
      vals := bucketLabels.map (fun b => bucketSumG (groupOf rows k) b)
      total := (bucketLabels.map (fun b => bucketSumG (groupOf rows k) b)).sum })

/-- One row of the "Percentuais" table: five percentage cells, no TOTAL. -/
structure PercentRow where
  filial : String
  vals : List ℚ
deriving DecidableEq

/-- `resumo_percentuais` (app.py lines 100-106): each non-TOTAL column
divided by TOTAL, times 100, rounded to 2 decimals; TOTAL dropped. -/
def resumo_percentuais (rows : List Row) : List PercentRow :=
  (resumo_valores rows).map (fun br =>
    { filial := br.filial
      vals := br.vals.map (fun v => round2 (v / br.total * 100)) })

/-- The three tables exported to the workbook. -/
structure Output where
  cobertura : List SummaryRow
  valores : List BucketRow
  percentuais : List PercentRow
deriving DecidableEq

/-- The row-processing stage: filter, then build the three tables. -/
def processRows (raw : List RawRow) : Output :=
  let rows := raw.filterMap filterRow
  { cobertura := cobertura rows
    valores := resumo_valores rows
    percentuais := resumo_percentuais rows }

/-- The rename map (app.py lines 26-31): the four original column names
become the canonical field names; every other name is unchanged
(`df.rename` leaves unmentioned columns alone and never fails, so a
pre-existing column named like a rename target yields duplicate labels). -/
def rename_col (c : String) : String :=
  if c = "Vlr Estoque Tmk" then "valor_estoque"
  else if c = "Cobertura Atual" then "cobertura_dias"
  else if c = "Filial" then "filial"
  else if c = "Saldo Pedido" then "saldo_pedido"
  else c

/-- The summary table when the frame carries duplicate `valor_estoque`
labels: `grupo["valor_estoque"]` is then a two-column frame, `np.average`
raises TypeError on the 2-D weights, and the bare except in
`calcular_media_ponderada` returns 0 — so every group's weighted mean is
reported as 0 while the simple mean and the pending total are computed
normally. -/
def cobertura_zeroed (rows : List Row) : List SummaryRow :=
  (groupKeys rows).map (fun k =>
    { filial := k
      media_ponderada := some 0
      media_simples := round2 (media_simples (groupOf rows k))
      saldo_total := round2 (saldo_total (groupOf rows k)) })

/-- The row-processing stage under duplicate `valor_estoque` labels:
only the weighted-mean column degenerates (see `cobertura_zeroed`);
the filter, the bucket table and the percent table are unaffected. -/
def processRows_zeroed (raw : List RawRow) : Output :=
  let rows := raw.filterMap filterRow
  { cobertura := cobertura_zeroed rows
    valores := resumo_valores rows
    percentuais := resumo_percentuais rows }

/-- The whole pipeline on an uploaded table: column validation
(app.py lines 19-23), the rename (lines 26-31), then the row-processing
stage.  On missing columns the run stops with the `st.error` message and
produces no output.  The rename can collide with pre-existing columns:
a duplicate `filial`, `cobertura_dias` or `saldo_pedido` label makes a
later line choke on two-dimensional input (`pd.cut` and `df.groupby`
reject it, and the filter's boolean mask degenerates) outside any inner
try/except, so the outer except (lines 130-132) ends the run with a
fatal `st.error` and no workbook — modelled as an error whose text
stands for the raised exception's message; a duplicate `valor_estoque`
label is caught by the inner bare except instead and only zeroes every
weighted mean (`processRows_zeroed`). -/
def pipeline (t : Table) : Except String Output :=
  if (missing_cols t).isEmpty then
    if 1 < (t.header.map rename_col).count "filial" ∨
        1 < (t.header.map rename_col).count "cobertura_dias" ∨
        1 < (t.header.map rename_col).count "saldo_pedido" then
      Except.error "Ocorreu um erro ao processar o arquivo: duplicated column labels"
    else if 1 < (t.header.map rename_col).count "valor_estoque" then
      Except.ok (processRows_zeroed (t.rows.map toRawRow))
    else
      Except.ok (processRows (t.rows.map toRawRow))
  else
    Except.error ("⚠️ Arquivo inválido! Faltam as colunas: " ++
      String.intercalate ", " (missing_cols t))

end App

namespace App

/-! ## Rounding lemmas -/

theorem abs_rhe_sub (q : ℚ) : |(rhe q : ℚ) - q| ≤ 1 / 2 := by
  unfold rhe
  split
  case isTrue h =>
    split
    · rw [abs_sub_comm, show q - (⌊q⌋ : ℚ) = 1 / 2 from h,
        abs_of_pos (by norm_num : (0 : ℚ) < 1 / 2)]
    · push_cast
      rw [show (⌊q⌋ : ℚ) + 1 - q = 1 / 2 by linarith,
        abs_of_pos (by norm_num : (0 : ℚ) < 1 / 2)]
  case isFalse h =>
    rw [abs_sub_comm]
    exact abs_sub_round q

theorem round2_zero : round2 0 = 0 := by
  unfold round2 rhe
  norm_num

theorem abs_round2_sub (q : ℚ) : |round2 q - q| ≤ 1 / 200 := by
  have h := abs_rhe_sub (q * 100)
  have heq : round2 q - q = ((rhe (q * 100) : ℚ) - q * 100) / 100 := by
    unfold round2; ring
  rw [heq, abs_div]
  rw [show |(100 : ℚ)| = 100 by norm_num]
  linarith

end App

namespace App

/-! ## Bucket lemmas -/

theorem sum_if_labels (c x : ℚ) (hc : 0 ≤ c) :
    (bucketLabels.map (fun b => if faixa c = some b then x else 0)).sum = x := by
  simp only [bucketLabels, List.map_cons, List.map_nil, List.sum_cons, List.sum_nil]
  unfold faixa
  rw [if_neg (not_lt.mpr hc)]
  split_ifs <;> simp_all

theorem bucketSumG_cons (r : Row) (g : List Row) (b : String) :
    bucketSumG (r :: g) b =
      (if faixa r.cobertura_dias = some b then r.saldo_pedido else 0) + bucketSumG g b := by
  by_cases h : faixa r.cobertura_dias = some b <;>
    simp [bucketSumG, List.filter_cons, h]

/-- The five buckets partition the rows of a group with positive coverage:
their sums add up to the group's total pending balance. -/
theorem sum_buckets (g : List Row) (hg : ∀ r ∈ g, 0 < r.cobertura_dias) :
    (bucketLabels.map (fun b => bucketSumG g b)).sum = saldo_total g := by
  induction g with
  | nil => simp [bucketSumG, bucketLabels, saldo_total]
  | cons r g ih =>
    have hr : (0 : ℚ) ≤ r.cobertura_dias :=
      le_of_lt (hg r (List.mem_cons_self r g))
    have ih2 := ih (fun x hx => hg x (List.mem_cons_of_mem _ hx))
    have hsplit := sum_if_labels r.cobertura_dias r.saldo_pedido hr
    simp only [bucketLabels, List.map_cons, List.map_nil, List.sum_cons,
      List.sum_nil, bucketSumG_cons, saldo_total] at hsplit ih2 ⊢
    linarith

end App

namespace App

/-! ## Group-key lemmas -/

theorem groupKeys_sorted (rows : List Row) : (groupKeys rows).Sorted (· < ·) := by
  have h1 : (groupKeys rows).Sorted (· ≤ ·) := List.sorted_insertionSort _ _
  have h2 : (groupKeys rows).Nodup :=
    ((List.perm_insertionSort _ _).nodup_iff).mpr (List.nodup_dedup _)
  exact h1.lt_of_le h2

theorem mem_groupKeys {rows : List Row} {k : String} :
    k ∈ groupKeys rows ↔ ∃ r ∈ rows, r.filial = k := by
  unfold groupKeys
  rw [(List.perm_insertionSort _ _).mem_iff, List.mem_dedup, List.mem_map]

theorem mem_groupOf {rows : List Row} {k : String} {r : Row} :
    r ∈ groupOf rows k ↔ r ∈ rows ∧ r.filial = k := by
  unfold groupOf
  rw [List.mem_filter, beq_iff_eq]

theorem groupOf_ne_nil {rows : List Row} {k : String} (h : k ∈ groupKeys rows) :
    groupOf rows k ≠ [] := by
  obtain ⟨r, hr, rfl⟩ := mem_groupKeys.mp h
  exact List.ne_nil_of_mem (mem_groupOf.mpr ⟨hr, rfl⟩)

end App

namespace App

/-! ## Percentage arithmetic -/

theorem int_abs_le_two {z : ℤ} (h : |(z : ℚ)| ≤ 5 / 2) : |(z : ℚ)| ≤ 2 := by
  have h1 : ((|z| : ℤ) : ℚ) ≤ 5 / 2 := by rw [Int.cast_abs]; exact h
  have h2 : ((|z| : ℤ) : ℚ) < 3 := lt_of_le_of_lt h1 (by norm_num)
  have h3 : |z| < 3 := by exact_mod_cast h2
  have h4 : |z| ≤ 2 := by omega
  rw [← Int.cast_abs]
  exact_mod_cast h4

/-- Rounding five shares of a whole to 2 decimals keeps their sum within
0.02 of 100: the total rounding error is an integer number of hundredths
of at most 5/2, hence at most 2. -/
theorem round2_pct_sum (v1 v2 v3 v4 v5 T : ℚ) (hT : T ≠ 0)
    (hsum : v1 + v2 + v3 + v4 + v5 = T) :
    |round2 (v1 / T * 100) + round2 (v2 / T * 100) + round2 (v3 / T * 100) +
      round2 (v4 / T * 100) + round2 (v5 / T * 100) - 100| ≤ 2 / 100 := by
  have hy : v1 / T * 100 * 100 + v2 / T * 100 * 100 + v3 / T * 100 * 100 +
      v4 / T * 100 * 100 + v5 / T * 100 * 100 = 10000 := by
    rw [show v1 / T * 100 * 100 + v2 / T * 100 * 100 + v3 / T * 100 * 100 +
        v4 / T * 100 * 100 + v5 / T * 100 * 100 =
        (v1 + v2 + v3 + v4 + v5) / T * 10000 by ring, hsum, div_self hT]
    norm_num
  have b1 := abs_le.mp (abs_rhe_sub (v1 / T * 100 * 100))
  have b2 := abs_le.mp (abs_rhe_sub (v2 / T * 100 * 100))
  have b3 := abs_le.mp (abs_rhe_sub (v3 / T * 100 * 100))
  have b4 := abs_le.mp (abs_rhe_sub (v4 / T * 100 * 100))
  have b5 := abs_le.mp (abs_rhe_sub (v5 / T * 100 * 100))
  have hz : |((rhe (v1 / T * 100 * 100) + rhe (v2 / T * 100 * 100) +
      rhe (v3 / T * 100 * 100) + rhe (v4 / T * 100 * 100) +
      rhe (v5 / T * 100 * 100) - 10000 : ℤ) : ℚ)| ≤ 5 / 2 := by
    rw [abs_le]
    constructor <;> · push_cast; linarith
  have hz2 := int_abs_le_two hz
  have hfin : round2 (v1 / T * 100) + round2 (v2 / T * 100) + round2 (v3 / T * 100) +
      round2 (v4 / T * 100) + round2 (v5 / T * 100) - 100 =
      ((rhe (v1 / T * 100 * 100) + rhe (v2 / T * 100 * 100) +
        rhe (v3 / T * 100 * 100) + rhe (v4 / T * 100 * 100) +
        rhe (v5 / T * 100 * 100) - 10000 : ℤ) : ℚ) / 100 := by
    unfold round2
    push_cast
    ring
  rw [hfin, abs_div, show |(100 : ℚ)| = 100 by norm_num]
  linarith

end App

namespace App

/-! ## Claim theorems -/

/-- C2: every input row with coverage_days ≤ 0 or pending_order_balance ≤ 0
is excluded by the filter before aggregation, so removing it from the input
changes no table: it contributes to no group's weighted mean, simple mean or
total pending balance, and to no bucket sum, TOTAL or percentage. -/
theorem nonpositive_row_no_contribution (l1 l2 : List RawRow) (rr : RawRow) (c s : ℚ)
    (hc : rr.cobertura_dias = some c) (hs : rr.saldo_pedido = some s)
    (h : c ≤ 0 ∨ s ≤ 0) :
    filterRow rr = none ∧
    processRows (l1 ++ rr :: l2) = processRows (l1 ++ l2) := by
  have hf : filterRow rr = none := by
    unfold filterRow
    rw [hc, hs]
    simp only [if_neg]
    rw [if_neg]
    rintro ⟨h1, h2⟩
    rcases h with h | h <;> linarith
  refine ⟨hf, ?_⟩
  unfold processRows
  rw [List.filterMap_append, List.filterMap_append, List.filterMap_cons_none hf]

theorem nonpositive_row_no_contribution_witness :
    (⟨"A", some (-3), some 10, some 7⟩ : RawRow).cobertura_dias = some (-3) ∧
    (⟨"A", some (-3), some 10, some 7⟩ : RawRow).saldo_pedido = some 7 ∧
    ((-3 : ℚ) ≤ 0 ∨ (7 : ℚ) ≤ 0) ∧
    filterRow ⟨"A", some (-3), some 10, some 7⟩ = none ∧
    processRows ([⟨"A", some 10, some 100, some 50⟩] ++ ⟨"A", some (-3), some 10, some 7⟩ ::
        [⟨"B", some 20, some 300, some 150⟩]) =
      processRows ([⟨"A", some 10, some 100, some 50⟩] ++ [⟨"B", some 20, some 300, some 150⟩]) := by
  refine ⟨rfl, rfl, Or.inl (by norm_num), ?_⟩
  exact nonpositive_row_no_contribution _ _ _ _ _ rfl rfl (Or.inl (by norm_num))

/-- C10: an input row whose coverage_days or pending_order_balance cell is
missing (NaN) is silently dropped by the filter — in pandas a comparison
with NaN is false — so it contributes to no aggregate, bucket sum or
percentage, and causes no error. -/
theorem nan_row_no_contribution (l1 l2 : List RawRow) (rr : RawRow)
    (h : rr.cobertura_dias = none ∨ rr.saldo_pedido = none) :
    filterRow rr = none ∧
    processRows (l1 ++ rr :: l2) = processRows (l1 ++ l2) := by
  have hf : filterRow rr = none := by
    unfold filterRow
    rcases h with h | h
    · rw [h]
    · rw [h]
      rcases rr.cobertura_dias with _ | c <;> rfl
  refine ⟨hf, ?_⟩
  unfold processRows
  rw [List.filterMap_append, List.filterMap_append, List.filterMap_cons_none hf]

theorem nan_row_no_contribution_witness :
    ((⟨"A", none, some 10, some 7⟩ : RawRow).cobertura_dias = none ∨
      (⟨"A", none, some 10, some 7⟩ : RawRow).saldo_pedido = none) ∧
    filterRow ⟨"A", none, some 10, some 7⟩ = none ∧
    processRows ([⟨"A", some 10, some 100, some 50⟩] ++ ⟨"A", none, some 10, some 7⟩ ::
        [⟨"B", some 20, some 300, some 150⟩]) =
      processRows ([⟨"A", some 10, some 100, some 50⟩] ++ [⟨"B", some 20, some 300, some 150⟩]) :=
  ⟨Or.inl rfl, nan_row_no_contribution _ _ _ (Or.inl rfl)⟩

end App

namespace App

/-- C4: when required columns are absent, the run fails with the error
message naming exactly the missing columns (those required and not in the
header, in the order of `required_cols`), and no output is produced:
the pipeline returns an error, so no table is computed or exported. -/
theorem missing_columns_abort (t : Table) (h : missing_cols t ≠ []) :
    pipeline t = Except.error
      ("⚠️ Arquivo inválido! Faltam as colunas: " ++
        String.intercalate ", " (missing_cols t)) ∧
    ∀ c, c ∈ missing_cols t ↔ c ∈ required_cols ∧ c ∉ t.header := by
  constructor
  · unfold pipeline
    rw [if_neg]
    simpa [List.isEmpty_iff] using h
  · intro c
    unfold missing_cols
    rw [List.mem_filter]
    simp

theorem missing_columns_abort_witness :
    missing_cols ⟨["Filial", "Cobertura Atual", "Vlr Estoque Tmk", "Mercadoria"], []⟩ ≠ [] ∧
    missing_cols ⟨["Filial", "Cobertura Atual", "Vlr Estoque Tmk", "Mercadoria"], []⟩ =
      ["Saldo Pedido"] ∧
    pipeline ⟨["Filial", "Cobertura Atual", "Vlr Estoque Tmk", "Mercadoria"], []⟩ =
      Except.error ("⚠️ Arquivo inválido! Faltam as colunas: " ++
        String.intercalate ", "
          (missing_cols ⟨["Filial", "Cobertura Atual", "Vlr Estoque Tmk", "Mercadoria"], []⟩)) := by
  refine ⟨by decide, by decide, ?_⟩
  exact (missing_columns_abort _ (by decide)).1

/-- C9: every group present in the BucketTable has TOTAL > 0, because the
filter keeps only rows with positive pending balance and every present
group is nonempty; hence the PercentTable's division by the group's TOTAL
never has a zero denominator for a group actually present. -/
theorem bucket_total_pos (rows : List Row)
    (hpos : ∀ r ∈ rows, 0 < r.cobertura_dias ∧ 0 < r.saldo_pedido) :
    ∀ br ∈ resumo_valores rows, 0 < br.total := by
  intro br hbr
  obtain ⟨k, hk, rfl⟩ := List.mem_map.mp hbr
  show 0 < (bucketLabels.map fun b => bucketSumG (groupOf rows k) b).sum
  rw [sum_buckets _ (fun r hr => (hpos r (mem_groupOf.mp hr).1).1)]
  apply List.sum_pos
  · intro x hx
    obtain ⟨r, hr, rfl⟩ := List.mem_map.mp hx
    exact (hpos r (mem_groupOf.mp hr).1).2
  · intro hnil
    exact groupOf_ne_nil hk (by simpa using hnil)

theorem bucket_total_pos_witness :
    (∀ r ∈ [(⟨"A", 10, some 100, 50⟩ : Row), ⟨"A", 70, some 300, 150⟩],
      0 < r.cobertura_dias ∧ 0 < r.saldo_pedido) ∧
    (⟨"A", [50, 0, 0, 0, 150], 200⟩ : BucketRow) ∈
      resumo_valores [⟨"A", 10, some 100, 50⟩, ⟨"A", 70, some 300, 150⟩] ∧
    (0 : ℚ) < (⟨"A", [50, 0, 0, 0, 150], 200⟩ : BucketRow).total := by
  have h1 : faixa 10 = some "0-15 dias" := by norm_num [faixa]
  have h2 : faixa 70 = some "Mais de 60 dias" := by norm_num [faixa]
  have hval : resumo_valores [⟨"A", 10, some 100, 50⟩, ⟨"A", 70, some 300, 150⟩] =
      [⟨"A", [50, 0, 0, 0, 150], 200⟩] := by
    norm_num [resumo_valores, groupKeys, groupOf, List.insertionSort, List.orderedInsert,
      bucketSumG, bucketLabels, h1, h2, List.filter_cons, beq_iff_eq]
    simp
    norm_num
  have hpos : ∀ r ∈ [(⟨"A", 10, some 100, 50⟩ : Row), ⟨"A", 70, some 300, 150⟩],
      0 < r.cobertura_dias ∧ 0 < r.saldo_pedido := by
    intro r hr
    simp only [List.mem_cons, List.not_mem_nil, or_false] at hr
    rcases hr with rfl | rfl <;> norm_num
  have hmem : (⟨"A", [50, 0, 0, 0, 150], 200⟩ : BucketRow) ∈
      resumo_valores [⟨"A", 10, some 100, 50⟩, ⟨"A", 70, some 300, 150⟩] := by
    rw [hval]
    exact List.mem_singleton.mpr rfl
  exact ⟨hpos, hmem, bucket_total_pos _ hpos _ hmem⟩

end App

namespace App

/-! ## Bucket boundary characterisations -/

theorem faixa_iff_1 (c : ℚ) : faixa c = some "0-15 dias" ↔ 0 ≤ c ∧ c < 15 := by
  constructor
  · intro h
    unfold faixa at h
    split_ifs at h <;> simp_all
  · rintro ⟨h1, h2⟩
    unfold faixa
    rw [if_neg (by linarith), if_pos h2]

theorem faixa_iff_2 (c : ℚ) : faixa c = some "16-30 dias" ↔ 15 ≤ c ∧ c < 30 := by
  constructor
  · intro h
    unfold faixa at h
    split_ifs at h <;> simp_all
  · rintro ⟨h1, h2⟩
    unfold faixa
    rw [if_neg (by linarith), if_neg (by linarith), if_pos h2]

theorem faixa_iff_3 (c : ℚ) : faixa c = some "31-45 dias" ↔ 30 ≤ c ∧ c < 45 := by
  constructor
  · intro h
    unfold faixa at h
    split_ifs at h <;> simp_all
  · rintro ⟨h1, h2⟩
    unfold faixa
    rw [if_neg (by linarith), if_neg (by linarith), if_neg (by linarith), if_pos h2]

theorem faixa_iff_4 (c : ℚ) : faixa c = some "46-60 dias" ↔ 45 ≤ c ∧ c < 60 := by
  constructor
  · intro h
    unfold faixa at h
    split_ifs at h <;> simp_all
  · rintro ⟨h1, h2⟩
    unfold faixa
    rw [if_neg (by linarith), if_neg (by linarith), if_neg (by linarith),
      if_neg (by linarith), if_pos h2]

theorem faixa_iff_5 (c : ℚ) : faixa c = some "Mais de 60 dias" ↔ 60 ≤ c := by
  constructor
  · intro h
    unfold faixa at h
    split_ifs at h <;> simp_all
  · intro h1
    unfold faixa
    rw [if_neg (by linarith), if_neg (by linarith), if_neg (by linarith),
      if_neg (by linarith), if_neg (by linarith)]

end App

namespace App

/-- C3: the buckets are the half-open intervals [0,15), [15,30), [30,45),
[45,60), [60,∞) under the labels of `bucketLabels` (so coverage exactly 15
falls in "16-30 dias"); each BucketTable row carries, for every one of the
five bucket labels (empty combinations included, as 0, never absent), the
sum of pending balances of the group's rows in that bucket, and TOTAL is
the sum across the five buckets. -/
theorem bucketizer_spec (rows : List Row) :
    (∀ c : ℚ,
      (faixa c = some "0-15 dias" ↔ 0 ≤ c ∧ c < 15) ∧
      (faixa c = some "16-30 dias" ↔ 15 ≤ c ∧ c < 30) ∧
      (faixa c = some "31-45 dias" ↔ 30 ≤ c ∧ c < 45) ∧
      (faixa c = some "46-60 dias" ↔ 45 ≤ c ∧ c < 60) ∧
      (faixa c = some "Mais de 60 dias" ↔ 60 ≤ c)) ∧
    ∀ br ∈ resumo_valores rows,
      br.vals = bucketLabels.map (fun b => bucketSumG (groupOf rows br.filial) b) ∧
      br.vals.length = bucketLabels.length ∧
      br.total = br.vals.sum ∧
      ∀ b, (groupOf rows br.filial).filter
          (fun r => faixa r.cobertura_dias == some b) = [] →
        bucketSumG (groupOf rows br.filial) b = 0 := by
  constructor
  · intro c
    exact ⟨faixa_iff_1 c, faixa_iff_2 c, faixa_iff_3 c, faixa_iff_4 c, faixa_iff_5 c⟩
  · intro br hbr
    obtain ⟨k, hk, rfl⟩ := List.mem_map.mp hbr
    refine ⟨rfl, rfl, rfl, ?_⟩
    intro b hb
    unfold bucketSumG
    rw [hb]
    rfl

theorem bucketizer_spec_witness :
    faixa 15 = some "16-30 dias" ∧
    (⟨"A", [50, 0, 0, 0, 150], 200⟩ : BucketRow) ∈
      resumo_valores [⟨"A", 10, some 100, 50⟩, ⟨"A", 70, some 300, 150⟩] ∧
    (⟨"A", [50, 0, 0, 0, 150], 200⟩ : BucketRow).vals =
      bucketLabels.map (fun b =>
        bucketSumG (groupOf [⟨"A", 10, some 100, 50⟩, ⟨"A", 70, some 300, 150⟩]
          (⟨"A", [50, 0, 0, 0, 150], 200⟩ : BucketRow).filial) b) ∧
    (⟨"A", [50, 0, 0, 0, 150], 200⟩ : BucketRow).total =
      (⟨"A", [50, 0, 0, 0, 150], 200⟩ : BucketRow).vals.sum ∧
    bucketSumG (groupOf [⟨"A", 10, some 100, 50⟩, ⟨"A", 70, some 300, 150⟩]
      (⟨"A", [50, 0, 0, 0, 150], 200⟩ : BucketRow).filial) "31-45 dias" = 0 := by
  have h1 : faixa 10 = some "0-15 dias" := by norm_num [faixa]
  have h2 : faixa 70 = some "Mais de 60 dias" := by norm_num [faixa]
  have hval : resumo_valores [⟨"A", 10, some 100, 50⟩, ⟨"A", 70, some 300, 150⟩] =
      [⟨"A", [50, 0, 0, 0, 150], 200⟩] := by
    norm_num [resumo_valores, groupKeys, groupOf, List.insertionSort, List.orderedInsert,
      bucketSumG, bucketLabels, h1, h2, List.filter_cons, beq_iff_eq]
    simp
    norm_num
  have hmem : (⟨"A", [50, 0, 0, 0, 150], 200⟩ : BucketRow) ∈
      resumo_valores [⟨"A", 10, some 100, 50⟩, ⟨"A", 70, some 300, 150⟩] := by
    rw [hval]
    exact List.mem_singleton.mpr rfl
  have h := (bucketizer_spec [⟨"A", 10, some 100, 50⟩, ⟨"A", 70, some 300, 150⟩]).2 _ hmem
  have hempty : (groupOf [⟨"A", 10, some 100, 50⟩, ⟨"A", 70, some 300, 150⟩]
      (⟨"A", [50, 0, 0, 0, 150], 200⟩ : BucketRow).filial).filter
      (fun r => faixa r.cobertura_dias == some "31-45 dias") = [] := by
    simp [groupOf, List.filter_cons, h1, h2]
  exact ⟨((bucketizer_spec []).1 15).2.1.mpr ⟨by norm_num, by norm_num⟩,
    hmem, h.1, h.2.2.1, h.2.2.2 "31-45 dias" hempty⟩

end App

namespace App

/-- C1: the summary table is ordered strictly ascending by group id
(deterministic), and for each of its rows, over the group's filtered rows:
total pending balance is the rounded sum, simple mean is the rounded
arithmetic mean, and — whenever no stock value is NaN — the weighted mean
is 0 when Σ stock_value = 0 (the try/except fallback, not a failure) and
otherwise round2 of Σ(coverage_days × stock_value) / Σ(stock_value). -/
theorem aggregator_spec (rows : List Row) :
    ((cobertura rows).map (fun e => e.filial)).Sorted (· < ·) ∧
    ∀ e ∈ cobertura rows,
      e.saldo_total = round2 ((groupOf rows e.filial).map (fun r => r.saldo_pedido)).sum ∧
      e.media_simples = round2 (((groupOf rows e.filial).map (fun r => r.cobertura_dias)).sum /
        ((groupOf rows e.filial).length : ℚ)) ∧
      ((∀ r ∈ groupOf rows e.filial, r.valor_estoque.isSome = true) →
        if ((groupOf rows e.filial).map (fun r => r.valor_estoque.getD 0)).sum = 0
        then e.media_ponderada = some 0
        else e.media_ponderada = some (round2
          (((groupOf rows e.filial).map (fun r => r.cobertura_dias * r.valor_estoque.getD 0)).sum /
            ((groupOf rows e.filial).map (fun r => r.valor_estoque.getD 0)).sum))) := by
  constructor
  · have hmapeq : (cobertura rows).map (fun e => e.filial) = groupKeys rows := by
      unfold cobertura
      rw [List.map_map]
      exact List.map_id _
    rw [hmapeq]
    exact groupKeys_sorted rows
  · intro e he
    obtain ⟨k, hk, rfl⟩ := List.mem_map.mp he
    refine ⟨rfl, rfl, ?_⟩
    intro hall
    have hall2 : (groupOf rows k).all (fun r => r.valor_estoque.isSome) = true :=
      List.all_eq_true.mpr hall
    split_ifs with h0
    · show (calcular_media_ponderada (groupOf rows k)).map round2 = some 0
      unfold calcular_media_ponderada
      rw [if_pos hall2, if_pos h0]
      simp [round2_zero]
    · show (calcular_media_ponderada (groupOf rows k)).map round2 = _
      unfold calcular_media_ponderada
      rw [if_pos hall2, if_neg h0]
      simp

end App

namespace App

theorem aggregator_spec_witness :
    ((cobertura [⟨"A", 10, some 100, 50⟩, ⟨"A", 20, some 300, 150⟩]).map
      (fun e => e.filial)).Sorted (· < ·) ∧
    (⟨"A", some (35/2), 15, 200⟩ : SummaryRow) ∈
      cobertura [⟨"A", 10, some 100, 50⟩, ⟨"A", 20, some 300, 150⟩] ∧
    (⟨"A", some (35/2), 15, 200⟩ : SummaryRow).saldo_total =
      round2 ((groupOf [⟨"A", 10, some 100, 50⟩, ⟨"A", 20, some 300, 150⟩] "A").map
        (fun r => r.saldo_pedido)).sum ∧
    (if ((groupOf [⟨"A", 10, some 100, 50⟩, ⟨"A", 20, some 300, 150⟩] "A").map
          (fun r => r.valor_estoque.getD 0)).sum = 0
      then (⟨"A", some (35/2), 15, 200⟩ : SummaryRow).media_ponderada = some 0
      else (⟨"A", some (35/2), 15, 200⟩ : SummaryRow).media_ponderada = some (round2
        (((groupOf [⟨"A", 10, some 100, 50⟩, ⟨"A", 20, some 300, 150⟩] "A").map
            (fun r => r.cobertura_dias * r.valor_estoque.getD 0)).sum /
          ((groupOf [⟨"A", 10, some 100, 50⟩, ⟨"A", 20, some 300, 150⟩] "A").map
            (fun r => r.valor_estoque.getD 0)).sum))) := by
  have h := aggregator_spec [⟨"A", 10, some 100, 50⟩, ⟨"A", 20, some 300, 150⟩]
  have hcob : cobertura [⟨"A", 10, some 100, 50⟩, ⟨"A", 20, some 300, 150⟩] =
      [⟨"A", some (35/2), 15, 200⟩] := by
    norm_num [cobertura, groupKeys, groupOf, List.insertionSort, List.orderedInsert,
      calcular_media_ponderada, media_simples, saldo_total, round2, rhe, round_eq]
  have hmem : (⟨"A", some (35/2), 15, 200⟩ : SummaryRow) ∈
      cobertura [⟨"A", 10, some 100, 50⟩, ⟨"A", 20, some 300, 150⟩] := by
    rw [hcob]
    exact List.mem_singleton.mpr rfl
  have hall : ∀ r ∈ groupOf [⟨"A", 10, some 100, 50⟩, ⟨"A", 20, some 300, 150⟩] "A",
      r.valor_estoque.isSome = true := by
    intro r hr
    have hrr := (mem_groupOf.mp hr).1
    simp only [List.mem_cons, List.not_mem_nil, or_false] at hrr
    rcases hrr with rfl | rfl <;> rfl
  exact ⟨h.1, hmem, (h.2 _ hmem).1, (h.2 _ hmem).2.2 hall⟩

/-- C5: the BucketTable and CoverageSummary list the same group ids in the
same order, and for each group the sum of the five bucket cells (which is
the TOTAL column) differs from the summary's (rounded) total pending
balance by at most 0.01. -/
theorem bucket_total_matches_summary (rows : List Row)
    (hc : ∀ r ∈ rows, 0 < r.cobertura_dias) :
    (resumo_valores rows).map (fun b => b.filial) =
      (cobertura rows).map (fun s => s.filial) ∧
    ∀ s ∈ cobertura rows, ∀ b ∈ resumo_valores rows, b.filial = s.filial →
      b.total = b.vals.sum ∧ |b.vals.sum - s.saldo_total| ≤ 1 / 100 := by
  constructor
  · unfold resumo_valores cobertura
    rw [List.map_map, List.map_map]
    rfl
  · intro s hs b hb hfe
    obtain ⟨k1, hk1, rfl⟩ := List.mem_map.mp hs
    obtain ⟨k2, hk2, rfl⟩ := List.mem_map.mp hb
    have hkk : k2 = k1 := hfe
    subst hkk
    refine ⟨rfl, ?_⟩
    have hpart := sum_buckets (groupOf rows k2) (fun r hr => hc r (mem_groupOf.mp hr).1)
    show |(bucketLabels.map fun bl => bucketSumG (groupOf rows k2) bl).sum -
      round2 (saldo_total (groupOf rows k2))| ≤ 1 / 100
    rw [hpart]
    have h2 := abs_round2_sub (saldo_total (groupOf rows k2))
    rw [abs_sub_comm] at h2
    linarith

theorem bucket_total_matches_summary_witness :
    (∀ r ∈ [(⟨"A", 10, some 100, 50⟩ : Row), ⟨"A", 70, some 300, 150⟩],
      0 < r.cobertura_dias) ∧
    (⟨"A", some 55, 40, 200⟩ : SummaryRow) ∈
      cobertura [⟨"A", 10, some 100, 50⟩, ⟨"A", 70, some 300, 150⟩] ∧
    (⟨"A", [50, 0, 0, 0, 150], 200⟩ : BucketRow) ∈
      resumo_valores [⟨"A", 10, some 100, 50⟩, ⟨"A", 70, some 300, 150⟩] ∧
    (⟨"A", [50, 0, 0, 0, 150], 200⟩ : BucketRow).total =
      (⟨"A", [50, 0, 0, 0, 150], 200⟩ : BucketRow).vals.sum ∧
    |(⟨"A", [50, 0, 0, 0, 150], 200⟩ : BucketRow).vals.sum -
      (⟨"A", some 55, 40, 200⟩ : SummaryRow).saldo_total| ≤ 1 / 100 := by
  have hc : ∀ r ∈ [(⟨"A", 10, some 100, 50⟩ : Row), ⟨"A", 70, some 300, 150⟩],
      0 < r.cobertura_dias := by
    intro r hr
    simp only [List.mem_cons, List.not_mem_nil, or_false] at hr
    rcases hr with rfl | rfl <;> norm_num
  have hcob : cobertura [⟨"A", 10, some 100, 50⟩, ⟨"A", 70, some 300, 150⟩] =
      [⟨"A", some 55, 40, 200⟩] := by
    norm_num [cobertura, groupKeys, groupOf, List.insertionSort, List.orderedInsert,
      calcular_media_ponderada, media_simples, saldo_total, round2, rhe, round_eq]
  have h1 : faixa 10 = some "0-15 dias" := by norm_num [faixa]
  have h2 : faixa 70 = some "Mais de 60 dias" := by norm_num [faixa]
  have hval : resumo_valores [⟨"A", 10, some 100, 50⟩, ⟨"A", 70, some 300, 150⟩] =
      [⟨"A", [50, 0, 0, 0, 150], 200⟩] := by
    norm_num [resumo_valores, groupKeys, groupOf, List.insertionSort, List.orderedInsert,
      bucketSumG, bucketLabels, h1, h2, List.filter_cons, beq_iff_eq]
    simp
    norm_num
  have hs : (⟨"A", some 55, 40, 200⟩ : SummaryRow) ∈
      cobertura [⟨"A", 10, some 100, 50⟩, ⟨"A", 70, some 300, 150⟩] := by
    rw [hcob]
    exact List.mem_singleton.mpr rfl
  have hb : (⟨"A", [50, 0, 0, 0, 150], 200⟩ : BucketRow) ∈
      resumo_valores [⟨"A", 10, some 100, 50⟩, ⟨"A", 70, some 300, 150⟩] := by
    rw [hval]
    exact List.mem_singleton.mpr rfl
  have h := (bucket_total_matches_summary _ hc).2 _ hs _ hb rfl
  exact ⟨hc, hs, hb, h.1, h.2⟩

end App

namespace App

/-- C6: each PercentTable cell is round2(bucket_sum / group_TOTAL × 100);
the TOTAL column is dropped (a percent row has exactly the five bucket
cells); and for every group with TOTAL > 0 the five percentages sum to
100 within ±0.02. -/
theorem percent_spec (rows : List Row) :
    (resumo_percentuais rows).map (fun p => p.filial) =
      (resumo_valores rows).map (fun b => b.filial) ∧
    ∀ b ∈ resumo_valores rows, ∀ p ∈ resumo_percentuais rows, p.filial = b.filial →
      p.vals = b.vals.map (fun v => round2 (v / b.total * 100)) ∧
      p.vals.length = bucketLabels.length ∧
      (0 < b.total → |p.vals.sum - 100| ≤ 2 / 100) := by
  constructor
  · unfold resumo_percentuais
    rw [List.map_map]
    rfl
  · intro b hb p hp hfe
    obtain ⟨k1, hk1, rfl⟩ := List.mem_map.mp hb
    obtain ⟨b2, hb2, rfl⟩ := List.mem_map.mp hp
    obtain ⟨k2, hk2, rfl⟩ := List.mem_map.mp hb2
    have hkk : k2 = k1 := hfe
    subst hkk
    refine ⟨rfl, rfl, ?_⟩
    intro hT
    show |((bucketLabels.map fun bl => bucketSumG (groupOf rows k2) bl).map
        (fun v => round2
          (v / (bucketLabels.map fun bl => bucketSumG (groupOf rows k2) bl).sum * 100))).sum -
      100| ≤ 2 / 100
    rw [List.map_map]
    set T := (bucketLabels.map fun bl => bucketSumG (groupOf rows k2) bl).sum with hTdef
    have hsum : bucketSumG (groupOf rows k2) "0-15 dias" +
        bucketSumG (groupOf rows k2) "16-30 dias" +
        bucketSumG (groupOf rows k2) "31-45 dias" +
        bucketSumG (groupOf rows k2) "46-60 dias" +
        bucketSumG (groupOf rows k2) "Mais de 60 dias" = T := by
      rw [hTdef]
      simp only [bucketLabels, List.map_cons, List.map_nil, List.sum_cons, List.sum_nil]
      ring
    have key := round2_pct_sum (bucketSumG (groupOf rows k2) "0-15 dias")
      (bucketSumG (groupOf rows k2) "16-30 dias")
      (bucketSumG (groupOf rows k2) "31-45 dias")
      (bucketSumG (groupOf rows k2) "46-60 dias")
      (bucketSumG (groupOf rows k2) "Mais de 60 dias")
      T (ne_of_gt hT) hsum
    simp only [bucketLabels, List.map_cons, List.map_nil, List.sum_cons, List.sum_nil,
      Function.comp] at key ⊢
    ring_nf at key ⊢
    exact key

end App

namespace App

theorem percent_spec_witness :
    (⟨"A", [50, 0, 0, 0, 150], 200⟩ : BucketRow) ∈
      resumo_valores [⟨"A", 10, some 100, 50⟩, ⟨"A", 70, some 300, 150⟩] ∧
    (⟨"A", [25, 0, 0, 0, 75]⟩ : PercentRow) ∈
      resumo_percentuais [⟨"A", 10, some 100, 50⟩, ⟨"A", 70, some 300, 150⟩] ∧
    (⟨"A", [25, 0, 0, 0, 75]⟩ : PercentRow).vals =
      (⟨"A", [50, 0, 0, 0, 150], 200⟩ : BucketRow).vals.map
        (fun v => round2 (v / (⟨"A", [50, 0, 0, 0, 150], 200⟩ : BucketRow).total * 100)) ∧
    (⟨"A", [25, 0, 0, 0, 75]⟩ : PercentRow).vals.length = bucketLabels.length ∧
    ((0 : ℚ) < (⟨"A", [50, 0, 0, 0, 150], 200⟩ : BucketRow).total ∧
      |(⟨"A", [25, 0, 0, 0, 75]⟩ : PercentRow).vals.sum - 100| ≤ 2 / 100) := by
  have h1 : faixa 10 = some "0-15 dias" := by norm_num [faixa]
  have h2 : faixa 70 = some "Mais de 60 dias" := by norm_num [faixa]
  have hval : resumo_valores [⟨"A", 10, some 100, 50⟩, ⟨"A", 70, some 300, 150⟩] =
      [⟨"A", [50, 0, 0, 0, 150], 200⟩] := by
    norm_num [resumo_valores, groupKeys, groupOf, List.insertionSort, List.orderedInsert,
      bucketSumG, bucketLabels, h1, h2, List.filter_cons, beq_iff_eq]
    simp
    norm_num
  have hpct : resumo_percentuais [⟨"A", 10, some 100, 50⟩, ⟨"A", 70, some 300, 150⟩] =
      [⟨"A", [25, 0, 0, 0, 75]⟩] := by
    unfold resumo_percentuais
    rw [hval]
    norm_num [round2, rhe, round_eq]
  have hb : (⟨"A", [50, 0, 0, 0, 150], 200⟩ : BucketRow) ∈
      resumo_valores [⟨"A", 10, some 100, 50⟩, ⟨"A", 70, some 300, 150⟩] := by
    rw [hval]
    exact List.mem_singleton.mpr rfl
  have hp : (⟨"A", [25, 0, 0, 0, 75]⟩ : PercentRow) ∈
      resumo_percentuais [⟨"A", 10, some 100, 50⟩, ⟨"A", 70, some 300, 150⟩] := by
    rw [hpct]
    exact List.mem_singleton.mpr rfl
  have h := (percent_spec [⟨"A", 10, some 100, 50⟩, ⟨"A", 70, some 300, 150⟩]).2
    _ hb _ hp rfl
  have hT : (0 : ℚ) < (⟨"A", [50, 0, 0, 0, 150], 200⟩ : BucketRow).total := by norm_num
  exact ⟨hb, hp, h.1, h.2.1, hT, h.2.2 hT⟩

end App

namespace App

/-- C7 fails as stated: for the single-row group "A" with coverage 7.123
and stock value 1, the reported weighted mean is the rounded 7.12, not
7.123; and for the single-row group "B" with stock value 0, `np.average`
raises (weights sum to zero), the except-branch yields 0, and the report
shows 0 instead of the row's coverage 10. -/
theorem single_row_exact_cex :
    groupOf [(⟨"A", 7123/1000, some 1, 5⟩ : Row)] "A" = [⟨"A", 7123/1000, some 1, 5⟩] ∧
    cobertura [(⟨"A", 7123/1000, some 1, 5⟩ : Row)] =
      [⟨"A", some (712/100), 712/100, 5⟩] ∧
    (712/100 : ℚ) ≠ 7123/1000 ∧
    groupOf [(⟨"B", 10, some 0, 5⟩ : Row)] "B" = [⟨"B", 10, some 0, 5⟩] ∧
    cobertura [(⟨"B", 10, some 0, 5⟩ : Row)] = [⟨"B", some 0, 10, 5⟩] ∧
    (0 : ℚ) ≠ 10 := by
  refine ⟨by simp [groupOf], ?_, by norm_num, by simp [groupOf], ?_, by norm_num⟩
  · norm_num [cobertura, groupKeys, groupOf, List.insertionSort, List.orderedInsert,
      calcular_media_ponderada, media_simples, saldo_total, round2, rhe, round_eq]
  · norm_num [cobertura, groupKeys, groupOf, List.insertionSort, List.orderedInsert,
      calcular_media_ponderada, media_simples, saldo_total, round2, rhe, round_eq]

/-- C7 amended: for a group consisting of a single filtered row whose
stock value is numeric and nonzero, the reported weighted_mean_days is
that row's coverage_days rounded to 2 decimal places (the unrounded
weighted mean is exactly the row's coverage_days; with stock value zero
the except-fallback reports 0 instead). -/
theorem single_row_group_weighted_mean (rows : List Row) (k : String) (r : Row) (w : ℚ)
    (hg : groupOf rows k = [r]) (hw : r.valor_estoque = some w) (hw0 : w ≠ 0) :
    ∀ e ∈ cobertura rows, e.filial = k →
      e.media_ponderada = some (round2 r.cobertura_dias) := by
  intro e he hek
  obtain ⟨k2, hk2, rfl⟩ := List.mem_map.mp he
  have hkk : k2 = k := hek
  subst hkk
  show (calcular_media_ponderada (groupOf rows k2)).map round2 =
    some (round2 r.cobertura_dias)
  rw [hg]
  unfold calcular_media_ponderada
  have hall : ([r].all fun x => x.valor_estoque.isSome) = true := by simp [hw]
  have hsum : ([r].map (fun x => x.valor_estoque.getD 0)).sum = w := by simp [hw]
  rw [if_pos hall, if_neg (by rw [hsum]; exact hw0)]
  have hv : (([r].map (fun x => x.cobertura_dias * x.valor_estoque.getD 0)).sum /
      ([r].map (fun x => x.valor_estoque.getD 0)).sum) = r.cobertura_dias := by
    rw [hsum]
    simp [hw]
    exact mul_div_cancel_right₀ _ hw0
  rw [hv]
  rfl

theorem single_row_group_weighted_mean_witness :
    groupOf [(⟨"A", 7123/1000, some 2, 5⟩ : Row)] "A" = [⟨"A", 7123/1000, some 2, 5⟩] ∧
    (⟨"A", 7123/1000, some 2, 5⟩ : Row).valor_estoque = some 2 ∧
    (2 : ℚ) ≠ 0 ∧
    (⟨"A", some (712/100), 712/100, 5⟩ : SummaryRow) ∈
      cobertura [(⟨"A", 7123/1000, some 2, 5⟩ : Row)] ∧
    (⟨"A", some (712/100), 712/100, 5⟩ : SummaryRow).media_ponderada =
      some (round2 (⟨"A", 7123/1000, some 2, 5⟩ : Row).cobertura_dias) := by
  have hg : groupOf [(⟨"A", 7123/1000, some 2, 5⟩ : Row)] "A" =
      [⟨"A", 7123/1000, some 2, 5⟩] := by simp [groupOf]
  have hcob : cobertura [(⟨"A", 7123/1000, some 2, 5⟩ : Row)] =
      [⟨"A", some (712/100), 712/100, 5⟩] := by
    norm_num [cobertura, groupKeys, groupOf, List.insertionSort, List.orderedInsert,
      calcular_media_ponderada, media_simples, saldo_total, round2, rhe, round_eq]
  have hmem : (⟨"A", some (712/100), 712/100, 5⟩ : SummaryRow) ∈
      cobertura [(⟨"A", 7123/1000, some 2, 5⟩ : Row)] := by
    rw [hcob]
    exact List.mem_singleton.mpr rfl
  exact ⟨hg, rfl, by norm_num,  hmem,
    single_row_group_weighted_mean _ "A" _ 2 hg rfl (by norm_num) _ hmem rfl⟩

end App

namespace App

theorem map_toRawRow_congr (l1 : List (String → CellVal)) :
    ∀ l2 : List (String → CellVal),
    l1.map (fun r => r "Filial") = l2.map (fun r => r "Filial") →
    l1.map (fun r => r "Cobertura Atual") = l2.map (fun r => r "Cobertura Atual") →
    l1.map (fun r => r "Vlr Estoque Tmk") = l2.map (fun r => r "Vlr Estoque Tmk") →
    l1.map (fun r => r "Saldo Pedido") = l2.map (fun r => r "Saldo Pedido") →
    l1.map toRawRow = l2.map toRawRow := by
  induction l1 with
  | nil =>
    intro l2 h1 _ _ _
    cases l2 with
    | nil => rfl
    | cons b l2 => simp at h1
  | cons a l1 ih =>
    intro l2 h1 h2 h3 h4
    cases l2 with
    | nil => simp at h1
    | cons b l2 =>
      simp only [List.map_cons, List.cons.injEq] at h1 h2 h3 h4 ⊢
      refine ⟨?_, ih l2 h1.2 h2.2 h3.2 h4.2⟩
      unfold toRawRow
      rw [h1.1, h2.1, h3.1, h4.1]

end App

namespace App

/-! ## Rename-collision lemmas -/

theorem rename_col_eq_filial (c : String) :
    rename_col c = "filial" ↔ (c = "Filial" ∨ c = "filial") := by
  unfold rename_col
  split_ifs <;> simp_all

theorem rename_col_eq_cobertura (c : String) :
    rename_col c = "cobertura_dias" ↔ (c = "Cobertura Atual" ∨ c = "cobertura_dias") := by
  unfold rename_col
  split_ifs <;> simp_all

theorem rename_col_eq_valor (c : String) :
    rename_col c = "valor_estoque" ↔ (c = "Vlr Estoque Tmk" ∨ c = "valor_estoque") := by
  unfold rename_col
  split_ifs <;> simp_all

theorem rename_col_eq_saldo (c : String) :
    rename_col c = "saldo_pedido" ↔ (c = "Saldo Pedido" ∨ c = "saldo_pedido") := by
  unfold rename_col
  split_ifs <;> simp_all

/-- When no column of `l` is already named `x`, the renamed header has as
many `x` labels as `l` has `o` labels, `o` being `x`'s only other origin
under `rename_col`. -/
theorem count_map_rename (x o : String)
    (hxo : ∀ c : String, rename_col c = x ↔ (c = o ∨ c = x)) :
    ∀ l : List String, (∀ c ∈ l, c ≠ x) → (l.map rename_col).count x = l.count o := by
  intro l
  induction l with
  | nil => intro _; rfl
  | cons a t ih =>
    intro hsafe
    have ha : a ≠ x := hsafe a (List.mem_cons_self a t)
    have ht := ih (fun c hc => hsafe c (List.mem_cons_of_mem _ hc))
    by_cases hao : a = o
    · subst hao
      have hrx : rename_col a = x := (hxo a).mpr (Or.inl rfl)
      simp [List.count_cons, hrx, ht, beq_iff_eq]
    · have hrx : rename_col a ≠ x := by
        intro hh
        rcases (hxo a).mp hh with h | h
        · exact hao h
        · exact ha h
      simp [List.count_cons, hrx, hao, ht, beq_iff_eq]

/-- On a table whose (distinct) column names avoid the four canonical
rename targets, the rename creates no duplicate label and the pipeline
takes the normal path. -/
theorem pipeline_clean (t : Table) (hnd : t.header.Nodup)
    (hsafe : ∀ c ∈ t.header, c ≠ "filial" ∧ c ≠ "cobertura_dias" ∧
      c ≠ "valor_estoque" ∧ c ≠ "saldo_pedido") :
    pipeline t = if (missing_cols t).isEmpty
      then Except.ok (processRows (t.rows.map toRawRow))
      else Except.error ("⚠️ Arquivo inválido! Faltam as colunas: " ++
        String.intercalate ", " (missing_cols t)) := by
  have hcount := List.nodup_iff_count_le_one.mp hnd
  have hf : (t.header.map rename_col).count "filial" ≤ 1 := by
    rw [count_map_rename "filial" "Filial" rename_col_eq_filial t.header
      (fun c hc => (hsafe c hc).1)]
    exact hcount "Filial"
  have hc : (t.header.map rename_col).count "cobertura_dias" ≤ 1 := by
    rw [count_map_rename "cobertura_dias" "Cobertura Atual" rename_col_eq_cobertura t.header
      (fun c hc => (hsafe c hc).2.1)]
    exact hcount "Cobertura Atual"
  have hv : (t.header.map rename_col).count "valor_estoque" ≤ 1 := by
    rw [count_map_rename "valor_estoque" "Vlr Estoque Tmk" rename_col_eq_valor t.header
      (fun c hc => (hsafe c hc).2.2.1)]
    exact hcount "Vlr Estoque Tmk"
  have hs : (t.header.map rename_col).count "saldo_pedido" ≤ 1 := by
    rw [count_map_rename "saldo_pedido" "Saldo Pedido" rename_col_eq_saldo t.header
      (fun c hc => (hsafe c hc).2.2.2)]
    exact hcount "Saldo Pedido"
  unfold pipeline
  by_cases hemp : (missing_cols t).isEmpty = true
  · rw [if_pos hemp, if_pos hemp,
      if_neg (by simp only [not_or]; exact ⟨not_lt.mpr hf, not_lt.mpr hc, not_lt.mpr hs⟩),
      if_neg (not_lt.mpr hv)]
  · rw [if_neg hemp, if_neg hemp]

end App

namespace App

/-- C8 fails as stated: two tables that agree on the five required columns
and differ only in an additional column can produce different outputs.
An extra column named `valor_estoque` collides with the rename target of
"Vlr Estoque Tmk": the frame gets duplicate `valor_estoque` labels,
`np.average` raises TypeError on the two-column weights, and the bare
except reports every group's weighted mean as 0 — here `some 10` becomes
`some 0` while the rest of the report is unchanged. -/
theorem extra_columns_cex :
    (∀ c ∈ required_cols,
      (c ∈ (⟨required_cols,
        [fun c => if c = "Filial" then CellVal.str "A"
          else if c = "Cobertura Atual" then CellVal.num 10
          else if c = "Vlr Estoque Tmk" then CellVal.num 100
          else if c = "Mercadoria" then CellVal.str "X"
          else if c = "Saldo Pedido" then CellVal.num 50
          else CellVal.nan]⟩ : Table).header ↔
       c ∈ (⟨required_cols ++ ["valor_estoque"],
        [fun c => if c = "valor_estoque" then CellVal.num 999
          else if c = "Filial" then CellVal.str "A"
          else if c = "Cobertura Atual" then CellVal.num 10
          else if c = "Vlr Estoque Tmk" then CellVal.num 100
          else if c = "Mercadoria" then CellVal.str "X"
          else if c = "Saldo Pedido" then CellVal.num 50
          else CellVal.nan]⟩ : Table).header)) ∧
    (∀ c ∈ required_cols,
      (⟨required_cols,
        [fun c => if c = "Filial" then CellVal.str "A"
          else if c = "Cobertura Atual" then CellVal.num 10
          else if c = "Vlr Estoque Tmk" then CellVal.num 100
          else if c = "Mercadoria" then CellVal.str "X"
          else if c = "Saldo Pedido" then CellVal.num 50
          else CellVal.nan]⟩ : Table).rows.map (fun r => r c) =
      (⟨required_cols ++ ["valor_estoque"],
        [fun c => if c = "valor_estoque" then CellVal.num 999
          else if c = "Filial" then CellVal.str "A"
          else if c = "Cobertura Atual" then CellVal.num 10
          else if c = "Vlr Estoque Tmk" then CellVal.num 100
          else if c = "Mercadoria" then CellVal.str "X"
          else if c = "Saldo Pedido" then CellVal.num 50
          else CellVal.nan]⟩ : Table).rows.map (fun r => r c)) ∧
    pipeline (⟨required_cols,
        [fun c => if c = "Filial" then CellVal.str "A"
          else if c = "Cobertura Atual" then CellVal.num 10
          else if c = "Vlr Estoque Tmk" then CellVal.num 100
          else if c = "Mercadoria" then CellVal.str "X"
          else if c = "Saldo Pedido" then CellVal.num 50
          else CellVal.nan]⟩ : Table) ≠
      pipeline (⟨required_cols ++ ["valor_estoque"],
        [fun c => if c = "valor_estoque" then CellVal.num 999
          else if c = "Filial" then CellVal.str "A"
          else if c = "Cobertura Atual" then CellVal.num 10
          else if c = "Vlr Estoque Tmk" then CellVal.num 100
          else if c = "Mercadoria" then CellVal.str "X"
          else if c = "Saldo Pedido" then CellVal.num 50
          else CellVal.nan]⟩ : Table) := by
  refine ⟨by decide, by decide, ?_⟩
  have hraw1 : (⟨required_cols,
      [fun c => if c = "Filial" then CellVal.str "A"
        else if c = "Cobertura Atual" then CellVal.num 10
        else if c = "Vlr Estoque Tmk" then CellVal.num 100
        else if c = "Mercadoria" then CellVal.str "X"
        else if c = "Saldo Pedido" then CellVal.num 50
        else CellVal.nan]⟩ : Table).rows.map toRawRow =
      [⟨"A", some 10, some 100, some 50⟩] := by decide
  have hraw2 : (⟨required_cols ++ ["valor_estoque"],
      [fun c => if c = "valor_estoque" then CellVal.num 999
        else if c = "Filial" then CellVal.str "A"
        else if c = "Cobertura Atual" then CellVal.num 10
        else if c = "Vlr Estoque Tmk" then CellVal.num 100
        else if c = "Mercadoria" then CellVal.str "X"
        else if c = "Saldo Pedido" then CellVal.num 50
        else CellVal.nan]⟩ : Table).rows.map toRawRow =
      [⟨"A", some 10, some 100, some 50⟩] := by decide
  have hfilter : ([(⟨"A", some 10, some 100, some 50⟩ : RawRow)]).filterMap filterRow =
      [⟨"A", 10, some 100, 50⟩] := by decide
  have hcobN : cobertura [⟨"A", 10, some 100, 50⟩] = [⟨"A", some 10, 10, 50⟩] := by
    norm_num [cobertura, groupKeys, groupOf, List.insertionSort, List.orderedInsert,
      calcular_media_ponderada, media_simples, saldo_total, round2, rhe, round_eq]
  have hcobZ : cobertura_zeroed [⟨"A", 10, some 100, 50⟩] = [⟨"A", some 0, 10, 50⟩] := by
    norm_num [cobertura_zeroed, groupKeys, groupOf, List.insertionSort, List.orderedInsert,
      media_simples, saldo_total, round2, rhe, round_eq]
  have hp1 : pipeline (⟨required_cols,
      [fun c => if c = "Filial" then CellVal.str "A"
        else if c = "Cobertura Atual" then CellVal.num 10
        else if c = "Vlr Estoque Tmk" then CellVal.num 100
        else if c = "Mercadoria" then CellVal.str "X"
        else if c = "Saldo Pedido" then CellVal.num 50
        else CellVal.nan]⟩ : Table) = Except.ok
      { cobertura := [⟨"A", some 10, 10, 50⟩]
        valores := resumo_valores [⟨"A", 10, some 100, 50⟩]
        percentuais := resumo_percentuais [⟨"A", 10, some 100, 50⟩] } := by
    unfold pipeline
    rw [if_pos (by decide), if_neg (by decide), if_neg (by decide), hraw1]
    simp only [processRows]
    rw [hfilter, hcobN]
  have hp2 : pipeline (⟨required_cols ++ ["valor_estoque"],
      [fun c => if c = "valor_estoque" then CellVal.num 999
        else if c = "Filial" then CellVal.str "A"
        else if c = "Cobertura Atual" then CellVal.num 10
        else if c = "Vlr Estoque Tmk" then CellVal.num 100
        else if c = "Mercadoria" then CellVal.str "X"
        else if c = "Saldo Pedido" then CellVal.num 50
        else CellVal.nan]⟩ : Table) = Except.ok
      { cobertura := [⟨"A", some 0, 10, 50⟩]
        valores := resumo_valores [⟨"A", 10, some 100, 50⟩]
        percentuais := resumo_percentuais [⟨"A", 10, some 100, 50⟩] } := by
    unfold pipeline
    rw [if_pos (by decide), if_neg (by decide), if_pos (by decide), hraw2]
    simp only [processRows_zeroed]
    rw [hfilter, hcobZ]
  rw [hp1, hp2]
  intro h
  simp only [Except.ok.injEq, Output.mk.injEq, List.cons.injEq, SummaryRow.mk.injEq,
    Option.some.injEq] at h
  norm_num at h

/-- C8 amended: extra columns are ignored provided they avoid the four
canonical rename targets.  For two tables with duplicate-free headers
(as `pd.read_excel` produces) none of whose columns is named `filial`,
`cobertura_dias`, `valor_estoque` or `saldo_pedido`, agreement on the
five required columns — presence in the header and cell values row by
row — gives identical pipeline results, whatever additional columns
either table carries.  (An extra column named after a rename target
perturbs the run: `valor_estoque` zeroes every weighted mean, the other
three derail it; see the counterexample.) -/
theorem extra_columns_ignored (t1 t2 : Table)
    (hnd1 : t1.header.Nodup) (hnd2 : t2.header.Nodup)
    (hsafe1 : ∀ c ∈ t1.header, c ≠ "filial" ∧ c ≠ "cobertura_dias" ∧
      c ≠ "valor_estoque" ∧ c ≠ "saldo_pedido")
    (hsafe2 : ∀ c ∈ t2.header, c ≠ "filial" ∧ c ≠ "cobertura_dias" ∧
      c ≠ "valor_estoque" ∧ c ≠ "saldo_pedido")
    (hmem : ∀ c ∈ required_cols, (c ∈ t1.header ↔ c ∈ t2.header))
    (hcol : ∀ c ∈ required_cols,
      t1.rows.map (fun r => r c) = t2.rows.map (fun r => r c)) :
    pipeline t1 = pipeline t2 := by
  have hmiss : missing_cols t1 = missing_cols t2 := by
    unfold missing_cols
    apply List.filter_congr
    intro c hc
    exact decide_eq_decide.mpr (not_congr (hmem c hc))
  have hrows : t1.rows.map toRawRow = t2.rows.map toRawRow :=
    map_toRawRow_congr t1.rows t2.rows
      (hcol _ (by decide)) (hcol _ (by decide)) (hcol _ (by decide))
      (hcol _ (by decide))
  rw [pipeline_clean t1 hnd1 hsafe1, pipeline_clean t2 hnd2 hsafe2, hmiss, hrows]

end App

namespace App

theorem extra_columns_ignored_witness :
    (⟨required_cols,
      [fun c => if c = "Filial" then CellVal.str "A"
        else if c = "Cobertura Atual" then CellVal.num 10
        else if c = "Vlr Estoque Tmk" then CellVal.num 100
        else if c = "Mercadoria" then CellVal.str "X"
        else if c = "Saldo Pedido" then CellVal.num 50
        else CellVal.nan]⟩ : Table).header.Nodup ∧
    (⟨required_cols ++ ["Extra"],
      [fun c => if c = "Extra" then CellVal.num 999
        else if c = "Filial" then CellVal.str "A"
        else if c = "Cobertura Atual" then CellVal.num 10
        else if c = "Vlr Estoque Tmk" then CellVal.num 100
        else if c = "Mercadoria" then CellVal.str "X"
        else if c = "Saldo Pedido" then CellVal.num 50
        else CellVal.nan]⟩ : Table).header.Nodup ∧
    (∀ c ∈ (required_cols : List String), c ≠ "filial" ∧ c ≠ "cobertura_dias" ∧
      c ≠ "valor_estoque" ∧ c ≠ "saldo_pedido") ∧
    (∀ c ∈ (required_cols ++ ["Extra"] : List String), c ≠ "filial" ∧ c ≠ "cobertura_dias" ∧
      c ≠ "valor_estoque" ∧ c ≠ "saldo_pedido") ∧
    (∀ c ∈ required_cols, (c ∈ (required_cols : List String) ↔
      c ∈ (required_cols ++ ["Extra"] : List String))) ∧
    (∀ c ∈ required_cols,
      (⟨required_cols,
        [fun c => if c = "Filial" then CellVal.str "A"
          else if c = "Cobertura Atual" then CellVal.num 10
          else if c = "Vlr Estoque Tmk" then CellVal.num 100
          else if c = "Mercadoria" then CellVal.str "X"
          else if c = "Saldo Pedido" then CellVal.num 50
          else CellVal.nan]⟩ : Table).rows.map (fun r => r c) =
      (⟨required_cols ++ ["Extra"],
        [fun c => if c = "Extra" then CellVal.num 999
          else if c = "Filial" then CellVal.str "A"
          else if c = "Cobertura Atual" then CellVal.num 10
          else if c = "Vlr Estoque Tmk" then CellVal.num 100
          else if c = "Mercadoria" then CellVal.str "X"
          else if c = "Saldo Pedido" then CellVal.num 50
          else CellVal.nan]⟩ : Table).rows.map (fun r => r c)) ∧
    pipeline (⟨required_cols,
        [fun c => if c = "Filial" then CellVal.str "A"
          else if c = "Cobertura Atual" then CellVal.num 10
          else if c = "Vlr Estoque Tmk" then CellVal.num 100
          else if c = "Mercadoria" then CellVal.str "X"
          else if c = "Saldo Pedido" then CellVal.num 50
          else CellVal.nan]⟩ : Table) =
      pipeline (⟨required_cols ++ ["Extra"],
        [fun c => if c = "Extra" then CellVal.num 999
          else if c = "Filial" then CellVal.str "A"
          else if c = "Cobertura Atual" then CellVal.num 10
          else if c = "Vlr Estoque Tmk" then CellVal.num 100
          else if c = "Mercadoria" then CellVal.str "X"
          else if c = "Saldo Pedido" then CellVal.num 50
          else CellVal.nan]⟩ : Table) := by
  refine ⟨by decide, by decide, by decide, by decide, by decide, by decide, ?_⟩
  exact extra_columns_ignored _ _ (by decide) (by decide) (by decide) (by decide)
    (by decide) (by decide)

end App
